import Mathlib

set_option maxRecDepth 100000

/-!
Shallow embedding of the data pipeline of `src/app.py` (Macro-model):
the Excel-loading / frequency-alignment code in `load_data` and `clean_fx`,
the scenario-adjustment block, and the Taylor-rule column computation.
Floating-point values are modelled as rationals; pandas `NaN`/`NaT` as
`Option.none`; DataFrame columns as lists.
-/

namespace MacroModel

/-- A calendar date (year, month, day), as produced by `pd.to_datetime`. -/
structure Date where
  y : ℕ
  m : ℕ
  d : ℕ
deriving Repr, DecidableEq

/-- Serial sort key of a date; chronological for real dates (m ≤ 12, d ≤ 31). -/
def Date.key (t : Date) : ℕ := t.y * 10000 + t.m * 100 + t.d

/-- Absolute month index used for monthly grouping (`resample('MS')`). -/
def Date.monthIx (t : Date) : ℕ := t.y * 12 + (t.m - 1)

/-- The first-of-month date of an absolute month index (`MS` bucket label). -/
def monthStart (mi : ℕ) : Date := ⟨mi / 12, mi % 12 + 1, 1⟩

/-- An untyped spreadsheet cell as read by `pd.read_excel`: a number, a
string, a date, or an empty cell (`NaN`). -/
inductive Cell where
  | num (q : ℚ)
  | str (s : String)
  | date (t : Date)
  | na
deriving Repr, DecidableEq

/-- Digits to a natural number, most significant first. -/
def digitsToNat (l : List Char) : ℕ :=
  l.foldl (fun a c => a * 10 + (c.toNat - 48)) 0

/-- Decimal-string parsing as performed by `pd.to_numeric` on a string cell:
an optional sign, an integer part, an optional fractional part, at least one
digit overall; anything else fails to parse. -/
def parseNumeric (s : String) : Option ℚ :=
  let cs := s.toList
  let signed : ℚ × List Char :=
    match cs with
    | '-' :: rest => (-1, rest)
    | '+' :: rest => (1, rest)
    | _ => (1, cs)
  let sign := signed.1
  let body := signed.2
  let intPart := body.takeWhile Char.isDigit
  let rest := body.dropWhile Char.isDigit
  match rest with
  | [] =>
    if intPart.isEmpty then none
    else some (sign * (digitsToNat intPart : ℚ))
  | '.' :: frac =>
    if frac.all Char.isDigit ∧ ¬ (intPart.isEmpty ∧ frac.isEmpty) then
      some (sign * ((digitsToNat intPart : ℚ) +
        (digitsToNat frac : ℚ) / ((10 : ℚ) ^ frac.length)))
    else none
  | _ => none

/-- `pd.to_numeric(·, errors='coerce')` on one cell: numbers pass through,
strings are parsed, parse failures and empty cells coerce to `NaN` (never
to zero), dates coerce to `NaN` in this model. -/
def to_numeric (c : Cell) : Option ℚ :=
  match c with
  | Cell.num q => some q
  | Cell.str s => parseNumeric s
  | Cell.date _ => none
  | Cell.na => none

/-- `.replace(0, pd.NA)` on one cell (`clean_fx`, src/app.py:71): a numeric
zero becomes an empty cell; everything else is unchanged. -/
def replace0 (c : Cell) : Cell :=
  match c with
  | Cell.num q => if q = 0 then Cell.na else Cell.num q
  | _ => c

/-- The value processing of `clean_fx`:
`pd.to_numeric(f[v_col].replace(0, pd.NA), errors='coerce')`. -/
def processVal (c : Cell) : Option ℚ := to_numeric (replace0 c)

/-- NaN-skipping arithmetic mean of a column, as pandas `.mean()`:
the mean of the present values, `NaN` when none are present. -/
def meanOpt (l : List (Option ℚ)) : Option ℚ :=
  let vs := l.filterMap id
  if vs.isEmpty then none else some (vs.sum / (vs.length : ℚ))

/-- `pd.to_datetime(·, errors='coerce')` on one cell: date cells parse,
everything else becomes `NaT` in this model. -/
def to_datetime (c : Cell) : Option Date :=
  match c with
  | Cell.date t => some t
  | _ => none

/-- Forward fill with an explicit carry: an empty entry takes the most
recent present value, a present entry resets the carry. -/
def ffillAux {α : Type} (carry : Option α) : List (Option α) → List (Option α)
  | [] => []
  | none :: t => carry :: ffillAux carry t
  | some v :: t => some v :: ffillAux (some v) t

/-- pandas `.ffill()` on one column. -/
def ffillO {α : Type} (l : List (Option α)) : List (Option α) :=
  ffillAux none l

/-- pandas `.bfill()` on one column: forward fill of the reversal. -/
def bfillO {α : Type} (l : List (Option α)) : List (Option α) :=
  (ffillAux none l.reverse).reverse

/-- `.ffill().bfill()` on one column, in the source's order. -/
def ffb {α : Type} (l : List (Option α)) : List (Option α) :=
  bfillO (ffillO l)

/-- The dated observations of an FX frame after
`dropna(subset=[d_col])`: rows whose date failed to parse are removed. -/
def dropNaT (rows : List (Option Date × Cell)) : List (Date × Cell) :=
  rows.filterMap (fun r => r.1.map (fun d => (d, r.2)))

/-- The observations of one monthly bucket, value-processed. -/
def monthObs (rows : List (Date × Cell)) (mi : ℕ) : List (Option ℚ) :=
  (rows.filter (fun p => p.1.monthIx = mi)).map (fun p => processVal p.2)

/-- The complete month range spanned by `resample('MS')`: every month
between the earliest and the latest observation, inclusive. -/
def monthRange (rows : List (Date × Cell)) : List ℕ :=
  match rows.map (fun p => p.1.monthIx) with
  | [] => []
  | mi :: mis =>
    let lo := mis.foldl min mi
    let hi := mis.foldl max mi
    (List.range (hi + 1 - lo)).map (fun k => k + lo)

/-- The per-month means of `resample('MS', on=d_col).mean()`: one entry per
month of the range, `NaN` for a month with no present observation. -/
def preMeans (rows : List (Date × Cell)) : List (Option ℚ) :=
  (monthRange rows).map (fun mi => meanOpt (monthObs rows mi))

/-- The monthly FX series produced by the tail of `clean_fx`:
`resample('MS', on=d_col).mean().ffill().bfill().reset_index()`, as
(month-start date, value) pairs. -/
def cleanFXdata (rows : List (Option Date × Cell)) : List (Date × Option ℚ) :=
  let obs := dropNaT rows
  List.zip ((monthRange obs).map monthStart) (ffb (preMeans obs))

/-- A raw table as read from one sheet: header names and data rows. -/
structure RawTable where
  cols : List String
  rows : List (List Cell)
deriving Repr, DecidableEq

/-- Cell of a row at a column position; missing positions read as empty. -/
def cellAt (r : List Cell) (i : ℕ) : Cell := r.getD i Cell.na

/-- Whether `pat` occurs as a contiguous run of `s` (Python's `in` on
strings, over character lists). -/
def charsContain (pat : List Char) : List Char → Bool
  | [] => pat.isEmpty
  | c :: t => pat.isPrefixOf (c :: t) || charsContain pat t

/-- The date-column lookup of `clean_fx`:
`[c for c in f.columns if 'date' in str(c).lower()][0]`, as an optional
index (the `[0]` of an empty list raises, which the bare `except` turns
into the empty-frame result). -/
def findDateCol (cols : List String) : Option ℕ :=
  cols.findIdx? (fun c => charsContain "date".toList c.toLower.toList)

/-- The value-column lookup of `clean_fx`:
`[c for c in f.columns if c != d_col][0]` — the first column index other
than the date column. -/
def findValCol (cols : List String) (di : ℕ) : Option ℕ :=
  (List.range cols.length).find? (fun j => j ≠ di)

/-- `clean_fx` (src/app.py:64-73): locate the date and value columns by
header text, parse dates, coerce values with zeros removed, resample to
monthly means, forward- then backward-fill, and on any failure (no date
column, no second column) return the empty frame — the bare
`except: return pd.DataFrame(columns=[...])`. -/
def clean_fx (t : RawTable) : List (Date × Option ℚ) :=
  match findDateCol t.cols with
  | none => []
  | some di =>
    match findValCol t.cols di with
    | none => []
    | some vi =>
      cleanFXdata (t.rows.map (fun r => (to_datetime (cellAt r di), cellAt r vi)))

/-- A row of the `Macro data` sheet after `pd.to_datetime` on `Date`:
the parsed date plus the indicator columns of one tracked market (we model
one CPI and one policy-rate column; the other markets' columns behave
identically). -/
structure MRow where
  date : Option Date
  cpi : Option ℚ
  policy : Option ℚ
deriving Repr, DecidableEq

/-- A row of the joined frame built by `load_data` after the merges: the
macro columns plus the year-merged GDP column and the date-merged FX
columns (one GDP column modelled; `fxI`, `fxU`, `fxS` are the three
`clean_fx` outputs). -/
structure Row where
  date : Option Date
  cpi : Option ℚ
  policy : Option ℚ
  gdp : Option ℚ
  fxI : Option ℚ
  fxU : Option ℚ
  fxS : Option ℚ
deriving Repr, DecidableEq, Inhabited

/-- One step of `df_m.merge(df_g, on='Year', how='left')` followed by the
three `.merge(fx, on='Date', how='left')`: the GDP value is looked up by
the row's year, each FX value by the row's exact date. -/
def mergeRow (dfg : List (ℕ × Option ℚ)) (fxi fxu fxs : List (Date × Option ℚ))
    (r : MRow) : Row :=
  { date := r.date
    cpi := r.cpi
    policy := r.policy
    gdp := r.date.bind (fun d => (dfg.find? (fun p => p.1 = d.y)).bind (fun p => p.2))
    fxI := r.date.bind (fun d => (fxi.find? (fun p => p.1 = d)).bind (fun p => p.2))
    fxU := r.date.bind (fun d => (fxu.find? (fun p => p.1 = d)).bind (fun p => p.2))
    fxS := r.date.bind (fun d => (fxs.find? (fun p => p.1 = d)).bind (fun p => p.2)) }

/-- Comparison used by `sort_values('Date')`: dates by chronological key,
`NaT` sorted last (pandas default `na_position='last'`). -/
def odLe : Option Date → Option Date → Bool
  | none, none => true
  | none, some _ => false
  | some _, none => true
  | some a, some b => a.key ≤ b.key

/-- Row order of `sort_values('Date')`. -/
def rowLe (a b : Row) : Prop := odLe a.date b.date = true

instance : DecidableRel rowLe := fun a b => decEq _ _

instance : IsTotal Row rowLe := by
  constructor
  intro a b
  cases ha : a.date <;> cases hb : b.date <;> simp [rowLe, odLe, ha, hb] <;> omega

instance : IsTrans Row rowLe := by
  constructor
  intro a b c
  cases ha : a.date <;> cases hb : b.date <;> cases hc : c.date <;>
    simp [rowLe, odLe, ha, hb, hc] <;> omega

/-- `sort_values('Date')`: a stable sort of the rows by date. -/
def sortRows (rows : List Row) : List Row := rows.insertionSort rowLe

/-- Columnwise `.ffill().bfill()` over the whole joined frame
(src/app.py:78): every column, the date column included, is forward-
then backward-filled; rows are rebuilt positionally. -/
def fillCols (rows : List Row) : List Row :=
  let d := ffb (rows.map (fun r => r.date))
  let c := ffb (rows.map (fun r => r.cpi))
  let p := ffb (rows.map (fun r => r.policy))
  let g := ffb (rows.map (fun r => r.gdp))
  let fi := ffb (rows.map (fun r => r.fxI))
  let fu := ffb (rows.map (fun r => r.fxU))
  let fs := ffb (rows.map (fun r => r.fxS))
  (List.range rows.length).map (fun i =>
    { date := d.getD i none
      cpi := c.getD i none
      policy := p.getD i none
      gdp := g.getD i none
      fxI := fi.getD i none
      fxU := fu.getD i none
      fxS := fs.getD i none })

/-- The joined frame of `load_data` (src/app.py:76-78): merge GDP by year
and the FX series by date onto the macro rows, sort by date, then
`.ffill().bfill()`. -/
def buildFrame (dfm : List MRow) (dfg : List (ℕ × Option ℚ))
    (fxi fxu fxs : List (Date × Option ℚ)) : List Row :=
  fillCols (sortRows (dfm.map (mergeRow dfg fxi fxu fxs)))

/-- The four file names `load_data` requires (src/app.py:56). -/
def fileNames : List String :=
  ["EM_Macro_Data_India_SG_UK.xlsx", "DEXINUS.xlsx", "DEXUSUK.xlsx", "AEXSIUS.xlsx"]

/-- `load_data` (src/app.py:55-79): if any of the four files is absent the
whole load returns `None` (src/app.py:57); otherwise the three FX tables
are cleaned independently by `clean_fx` and joined with the macro and GDP
tables into one frame. -/
def load_data (fExists : String → Bool) (dfm : List MRow)
    (dfg : List (ℕ × Option ℚ)) (tInr tGbp tSgd : RawTable) : Option (List Row) :=
  if fileNames.all fExists then
    some (buildFrame dfm dfg (clean_fx tInr) (clean_fx tGbp) (clean_fx tSgd))
  else
    none

/-- A heap of DataFrames: `df_raw` and `df` in the app are references into
it, so pandas copying versus in-place column mutation is explicit. -/
abbrev Heap : Type := List (List Row)

/-- `df = df_raw.copy()`: append a fresh copy of frame `i`, return the new
reference. -/
def copyFrame (h : Heap) (i : ℕ) : Heap × ℕ :=
  (h ++ [h.getD i []], h.length)

/-- In-place column mutation of the frame at reference `j`
(`df[col] += delta` style). -/
def mutateFrame (h : Heap) (j : ℕ) (f : Row → Row) : Heap :=
  h.set j ((h.getD j []).map f)

/-- The scenario block of the app (src/app.py:122-132) for the
`Stagflation` preset: `df = df_raw.copy()`;
`df[p] += rate_intervention/100`; `df[cpi] += 5.0*mult`;
`df[gdp] -= 3.0*mult` with `mult = severity/100`. `NaN` entries stay
`NaN`. Returns the heap and the reference of the new frame. -/
def applyStagflation (h : Heap) (i : ℕ) (rateAdj mult : ℚ) : Heap × ℕ :=
  let cpy := copyFrame h i
  let h1 := cpy.1
  let j := cpy.2
  let h2 := mutateFrame h1 j (fun r => { r with policy := r.policy.map (fun v => v + rateAdj / 100) })
  let h3 := mutateFrame h2 j (fun r => { r with cpi := r.cpi.map (fun v => v + 5 * mult) })
  let h4 := mutateFrame h3 j (fun r => { r with gdp := r.gdp.map (fun v => v - 3 * mult) })
  (h4, j)

/-- `df[col].iloc[-1]`: the value in the last row of a column. -/
def lastVal (l : List (Option ℚ)) : Option ℚ := l.getLastD none

/-- The Taylor column of the app (src/app.py:134-135):
`avg_g = df[gdp].mean()`;
`df['Taylor'] = n + 0.5*(df[cpi] - t) + 0.5*(df[gdp] - avg_g)`,
elementwise with `NaN` propagation. -/
def taylorColumn (n t : ℚ) (cpi gdp : List (Option ℚ)) : List (Option ℚ) :=
  let avg := meanOpt gdp
  List.zipWith
    (fun c g =>
      c.bind (fun cv => g.bind (fun gv => avg.map (fun a =>
        n + 1 / 2 * (cv - t) + 1 / 2 * (gv - a)))))
    cpi gdp

/-- Modelled from the spec: `TaylorRuleEngine.evaluate` (§4.5) with its
smoothing parameter. No smoothing parameter exists anywhere in
`src/app.py`; the smoothed evaluator is present only in the spec, so it is
modelled from the spec's words:
`raw = r_star + inflation + inf_weight*(inflation - target) + out_weight*gap`,
`fair = (1 - smoothing)*raw + smoothing*rate`,
`gap_bps = (fair - rate)*100`. -/
structure ModelConfig where
  target_inflation : ℚ
  neutral_real_rate : ℚ
  inflation_weight : ℚ
  output_weight : ℚ
  smoothing : ℚ
deriving Repr, DecidableEq

/-- Modelled from the spec: the unsmoothed Taylor-rule fair value of §4.5
(absent from `src/app.py`, whose Taylor column omits the additive
inflation term and hardcodes both weights to 0.5). -/
def raw_fair_value (inflation : ℚ) (output_gap : ℚ) (cfg : ModelConfig) : ℚ :=
  cfg.neutral_real_rate + inflation +
    cfg.inflation_weight * (inflation - cfg.target_inflation) +
    cfg.output_weight * output_gap

/-- Modelled from the spec: `evaluate` of §4.5 (absent from `src/app.py`),
returning the smoothed fair value and the policy gap in basis points. -/
def evaluate (inflation rate output_gap : ℚ) (cfg : ModelConfig) : ℚ × ℚ :=
  let fair := (1 - cfg.smoothing) * raw_fair_value inflation output_gap cfg +
    cfg.smoothing * rate
  (fair, (fair - rate) * 100)

/-- Key of an optional date (`NaT` keyed 0); used to state ordering of
date columns whose entries are all present. -/
def odKey : Option Date → ℕ
  | some t => t.key
  | none => 0

/-- Erase the India FX column of a row; used to state that the other
columns do not depend on the India FX source. -/
def scrubFxI (r : Row) : Row := { r with fxI := none }

/-- A raw FX table whose February has only a non-numeric observation:
one numeric daily value in January 2020 and an `ND` in February 2020. -/
def fxFebND : RawTable :=
  { cols := ["DATE", "DEXINUS"]
    rows := [[Cell.date ⟨2020, 1, 5⟩, Cell.num 1],
             [Cell.date ⟨2020, 2, 10⟩, Cell.str "ND"]] }

/-- Daily observations of one month: three values of 10.0 and one `ND`. -/
def janTens : List (Option Date × Cell) :=
  [(some ⟨2020, 1, 2⟩, Cell.num 10), (some ⟨2020, 1, 3⟩, Cell.num 10),
   (some ⟨2020, 1, 4⟩, Cell.num 10), (some ⟨2020, 1, 5⟩, Cell.str "ND")]

/-- A raw table none of whose column names contains "date". -/
def noDateTable : RawTable :=
  { cols := ["Year", "Value"], rows := [[Cell.num 2020, Cell.num 1]] }

/-- Twelve monthly macro rows covering January–December 2020. -/
def dfm2020 : List MRow :=
  (List.range 12).map (fun k => { date := some ⟨2020, k + 1, 1⟩, cpi := some 5, policy := some 6 })

/-- Two monthly macro rows in different years: January 2020, January 2021. -/
def dfmTwoYears : List MRow :=
  [{ date := some ⟨2020, 1, 1⟩, cpi := some 5, policy := some 6 },
   { date := some ⟨2021, 1, 1⟩, cpi := some 5, policy := some 6 }]

/-- A GDP table with a single year 2020 observation of 6.5 and no entry
for 2021. -/
def dfgOnly2020 : List (ℕ × Option ℚ) := [(2020, some (13 / 2))]

/-- Two macro rows carrying the same date (a duplicated raw row). -/
def dfmDupDate : List MRow :=
  [{ date := some ⟨2020, 1, 1⟩, cpi := some 5, policy := some 6 },
   { date := some ⟨2020, 1, 1⟩, cpi := some 7, policy := some 8 }]

/-- A one-row joined frame with CPI 5.0 and policy 6.0, as in the spec's
end-to-end scenario test. -/
def baseFrame : List Row :=
  [{ date := some ⟨2024, 1, 1⟩, cpi := some 5, policy := some 6, gdp := some 2,
     fxI := none, fxU := none, fxS := none }]

/-- File-existence oracle with `DEXINUS.xlsx` (the India FX file) absent
and every other file present. -/
def inrMissing : String → Bool := fun s => !(s == "DEXINUS.xlsx")

/-- A well-formed one-observation FX table (the UK source). -/
def gbpTable : RawTable :=
  { cols := ["DATE", "DEXUSUK"], rows := [[Cell.date ⟨2024, 1, 2⟩, Cell.num 2]] }

/-! ### Helper lemmas about filling, projections and sorting -/

theorem ffillAux_length {α : Type} (carry : Option α) (l : List (Option α)) :
    (ffillAux carry l).length = l.length := by
  induction l generalizing carry with
  | nil => rfl
  | cons h t ih => cases h <;> simp [ffillAux, ih]

theorem ffillAux_getElem?_some {α : Type} (carry : Option α) (l : List (Option α))
    (i : ℕ) (v : α) (h : l[i]? = some (some v)) :
    (ffillAux carry l)[i]? = some (some v) := by
  induction l generalizing carry i with
  | nil => simp at h
  | cons hd t ih =>
    cases i with
    | zero => simp at h; subst h; simp [ffillAux]
    | succ n =>
      simp only [List.getElem?_cons_succ] at h
      cases hd <;> simpa [ffillAux] using ih _ n h

theorem ffillO_getElem?_some {α : Type} (l : List (Option α)) (i : ℕ) (v : α)
    (h : l[i]? = some (some v)) : (ffillO l)[i]? = some (some v) :=
  ffillAux_getElem?_some none l i v h

theorem ffillO_length {α : Type} (l : List (Option α)) : (ffillO l).length = l.length :=
  ffillAux_length none l

theorem bfillO_getElem?_some {α : Type} (l : List (Option α)) (i : ℕ) (v : α)
    (h : l[i]? = some (some v)) : (bfillO l)[i]? = some (some v) := by
  have hi : i < l.length := by
    by_contra hge
    rw [List.getElem?_eq_none (by omega)] at h
    exact Option.noConfusion h
  have hlen : (ffillAux none l.reverse).length = l.length := by
    rw [ffillAux_length, List.length_reverse]
  have hrev : l.reverse[l.length - 1 - i]? = some (some v) := by
    rw [List.getElem?_reverse (show l.length - 1 - i < l.length by omega)]
    have hidx : l.length - 1 - (l.length - 1 - i) = i := by omega
    rw [hidx]
    exact h
  have hfill := ffillAux_getElem?_some none l.reverse (l.length - 1 - i) v hrev
  unfold bfillO
  rw [List.getElem?_reverse (show i < (ffillAux none l.reverse).length by rw [hlen]; omega),
    hlen]
  exact hfill

theorem bfillO_length {α : Type} (l : List (Option α)) : (bfillO l).length = l.length := by
  unfold bfillO
  rw [List.length_reverse, ffillAux_length, List.length_reverse]

theorem ffb_getElem?_some {α : Type} (l : List (Option α)) (i : ℕ) (v : α)
    (h : l[i]? = some (some v)) : (ffb l)[i]? = some (some v) :=
  bfillO_getElem?_some _ i v (ffillO_getElem?_some l i v h)

theorem ffb_length {α : Type} (l : List (Option α)) : (ffb l).length = l.length := by
  unfold ffb
  rw [bfillO_length, ffillO_length]

theorem ffillAux_all_isSome {α : Type} (carry : Option α) (l : List (Option α))
    (h : ∀ x ∈ l, x.isSome) : ffillAux carry l = l := by
  induction l generalizing carry with
  | nil => rfl
  | cons hd t ih =>
    cases hd with
    | none => simpa using h none (by simp)
    | some v => simp [ffillAux, ih (some v) (fun x hx => h x (by simp [hx]))]

theorem ffb_all_isSome {α : Type} (l : List (Option α)) (h : ∀ x ∈ l, x.isSome) :
    ffb l = l := by
  unfold ffb ffillO bfillO
  rw [ffillAux_all_isSome none l h, ffillAux_all_isSome none l.reverse
    (fun x hx => h x (List.mem_reverse.mp hx)), List.reverse_reverse]

theorem range_map_getD {α : Type} (l : List α) (d : α) :
    (List.range l.length).map (fun i => l.getD i d) = l := by
  induction l with
  | nil => rfl
  | cons a t ih =>
    rw [List.length_cons, List.range_succ_eq_map, List.map_cons, List.map_map]
    have hc : ((fun i => (a :: t).getD i d) ∘ Nat.succ) = fun i => t.getD i d := by
      funext i
      simp [List.getD]
    rw [show List.map ((fun i => (a :: t).getD i d) ∘ Nat.succ) (List.range t.length)
        = List.map (fun i => t.getD i d) (List.range t.length) by rw [hc], ih]
    rfl

theorem fillCols_map_date (rows : List Row) :
    (fillCols rows).map (fun r => r.date) = ffb (rows.map (fun r => r.date)) := by
  have key : ∀ (n : ℕ) (l : List (Option Date)), n = l.length →
      (List.range n).map (fun i => l.getD i none) = l := by
    intro n l hn
    subst hn
    exact range_map_getD l none
  unfold fillCols
  rw [List.map_map]
  exact key rows.length _ (by rw [ffb_length, List.length_map])

theorem fillCols_map_cpi (rows : List Row) :
    (fillCols rows).map (fun r => r.cpi) = ffb (rows.map (fun r => r.cpi)) := by
  have key : ∀ (n : ℕ) (l : List (Option ℚ)), n = l.length →
      (List.range n).map (fun i => l.getD i none) = l := by
    intro n l hn
    subst hn
    exact range_map_getD l none
  unfold fillCols
  rw [List.map_map]
  exact key rows.length _ (by rw [ffb_length, List.length_map])

theorem fillCols_map_gdp (rows : List Row) :
    (fillCols rows).map (fun r => r.gdp) = ffb (rows.map (fun r => r.gdp)) := by
  have key : ∀ (n : ℕ) (l : List (Option ℚ)), n = l.length →
      (List.range n).map (fun i => l.getD i none) = l := by
    intro n l hn
    subst hn
    exact range_map_getD l none
  unfold fillCols
  rw [List.map_map]
  exact key rows.length _ (by rw [ffb_length, List.length_map])

theorem fillCols_map_fxU (rows : List Row) :
    (fillCols rows).map (fun r => r.fxU) = ffb (rows.map (fun r => r.fxU)) := by
  have key : ∀ (n : ℕ) (l : List (Option ℚ)), n = l.length →
      (List.range n).map (fun i => l.getD i none) = l := by
    intro n l hn
    subst hn
    exact range_map_getD l none
  unfold fillCols
  rw [List.map_map]
  exact key rows.length _ (by rw [ffb_length, List.length_map])

theorem sortRows_perm (rows : List Row) : List.Perm (sortRows rows) rows :=
  List.perm_insertionSort rowLe rows

theorem sortRows_sorted (rows : List Row) : List.Sorted rowLe (sortRows rows) :=
  List.sorted_insertionSort rowLe rows

theorem orderedInsert_map {α β : Type} (g : α → β) (rel : α → α → Prop)
    (rel' : β → β → Prop) [DecidableRel rel] [DecidableRel rel']
    (hg : ∀ a b, rel a b ↔ rel' (g a) (g b)) (a : α) (l : List α) :
    (l.orderedInsert rel a).map g = (l.map g).orderedInsert rel' (g a) := by
  induction l with
  | nil => rfl
  | cons b t ih =>
    by_cases h : rel a b
    · have h' : rel' (g a) (g b) := (hg a b).mp h
      simp [List.orderedInsert, h, h']
    · have h' : ¬ rel' (g a) (g b) := fun hc => h ((hg a b).mpr hc)
      simp [List.orderedInsert, h, h', ih]

theorem insertionSort_map {α β : Type} (g : α → β) (rel : α → α → Prop)
    (rel' : β → β → Prop) [DecidableRel rel] [DecidableRel rel']
    (hg : ∀ a b, rel a b ↔ rel' (g a) (g b)) (l : List α) :
    (l.insertionSort rel).map g = (l.map g).insertionSort rel' := by
  induction l with
  | nil => rfl
  | cons a t ih =>
    simp only [List.insertionSort, List.map_cons]
    rw [orderedInsert_map g rel rel' hg, ih]

theorem monthObs_cons (p : Date × Cell) (t : List (Date × Cell)) (mi : ℕ) :
    monthObs (p :: t) mi =
      (if p.1.monthIx = mi then [processVal p.2] else []) ++ monthObs t mi := by
  by_cases hm : p.1.monthIx = mi <;> simp [monthObs, List.filter_cons, hm]

theorem monthObs_filterMap_nonzero (rows : List (Date × Cell)) (mi : ℕ) :
    (monthObs rows mi).filterMap id =
      (monthObs (rows.filter (fun p => !(p.2 == Cell.num 0))) mi).filterMap id := by
  induction rows with
  | nil => rfl
  | cons p t ih =>
    by_cases hz : p.2 = Cell.num 0
    · have hpz : processVal p.2 = none := by rw [hz]; rfl
      have hflt : (p :: t).filter (fun p => !(p.2 == Cell.num 0))
          = t.filter (fun p => !(p.2 == Cell.num 0)) := by
        simp [List.filter_cons, hz]
      rw [monthObs_cons, hflt, ← ih]
      by_cases hm : p.1.monthIx = mi <;> simp [hm, hpz]
    · have hflt : (p :: t).filter (fun p => !(p.2 == Cell.num 0))
          = p :: t.filter (fun p => !(p.2 == Cell.num 0)) := by
        simp [List.filter_cons, hz]
      rw [monthObs_cons, hflt, monthObs_cons]
      by_cases hm : p.1.monthIx = mi <;>
        cases hv : processVal p.2 <;> simp [hm, hv, ih]

theorem monthObs_allZero (rows : List (Date × Cell)) (mi : ℕ)
    (h : ∀ p ∈ rows, p.1.monthIx = mi → p.2 = Cell.num 0) :
    (monthObs rows mi).filterMap id = [] := by
  induction rows with
  | nil => rfl
  | cons p t ih =>
    have ht := ih (fun q hq hq' => h q (List.mem_cons_of_mem p hq) hq')
    rw [monthObs_cons]
    by_cases hm : p.1.monthIx = mi
    · have hz := h p (List.mem_cons_self p t) hm
      have hpz : processVal p.2 = none := by rw [hz]; rfl
      simp [hm, hpz, ht]
    · simp [hm, ht]

theorem getD_set_self (l : List (List Row)) (n : ℕ) (a d : List Row)
    (h : n < l.length) : (l.set n a).getD n d = a := by
  rw [List.getD_eq_getElem?_getD, List.getElem?_set_self h]
  rfl

theorem getD_set_ne (l : List (List Row)) {n m : ℕ} (a d : List Row)
    (h : n ≠ m) : (l.set n a).getD m d = l.getD m d := by
  rw [List.getD_eq_getElem?_getD, List.getElem?_set_ne h, ← List.getD_eq_getElem?_getD]

/-! ### Claim theorems -/

/-- C8: numeric coercion maps every non-numeric input — including the
sentinels "ND", the empty string and a lone "." — to Missing without
raising and without substituting zero, while numeric strings such as
"4.5" coerce to their numeric value. -/
theorem C8_sentinel_coercion :
    to_numeric (Cell.str "ND") = none ∧
    to_numeric (Cell.str "") = none ∧
    to_numeric (Cell.str ".") = none ∧
    to_numeric (Cell.str "4.5") = some (9 / 2) ∧
    (∀ s : String, parseNumeric s = none → to_numeric (Cell.str s) = none) ∧
    (∀ (s : String) (q : ℚ), to_numeric (Cell.str s) = some q → parseNumeric s = some q) := by
  refine ⟨by with_unfolding_all decide, by with_unfolding_all decide,
    by with_unfolding_all decide, by with_unfolding_all decide, ?_, ?_⟩
  · intro s h
    simpa [to_numeric] using h
  · intro s q h
    simpa [to_numeric] using h

/-- Witness for C8: the non-numeric sentinel "ND" concretely coerces to
Missing. -/
theorem C8_sentinel_coercion_witness :
    parseNumeric "ND" = none ∧ to_numeric (Cell.str "ND") = none :=
  ⟨by with_unfolding_all decide,
    C8_sentinel_coercion.2.2.2.2.1 "ND" (by with_unfolding_all decide)⟩

/-- C10: `replace(0, pd.NA)` makes zero-valued daily observations drop out
of the monthly mean entirely (numerator and denominator), and a month
whose observations are all zero produces the same Missing mean as a month
with no observations. -/
theorem C10_zero_replaced_before_mean :
    (∀ (rows : List (Date × Cell)) (mi : ℕ),
      meanOpt (monthObs rows mi) =
        meanOpt (monthObs (rows.filter (fun p => !(p.2 == Cell.num 0))) mi)) ∧
    (∀ (rows : List (Date × Cell)) (mi : ℕ),
      (∀ p ∈ rows, p.1.monthIx = mi → p.2 = Cell.num 0) →
      meanOpt (monthObs rows mi) = none) := by
  constructor
  · intro rows mi
    unfold meanOpt
    rw [monthObs_filterMap_nonzero]
  · intro rows mi h
    unfold meanOpt
    rw [monthObs_allZero rows mi h]
    rfl

/-- Witness for C10: a January 2020 bucket holding only two zero
observations concretely yields a Missing monthly mean. -/
theorem C10_zero_replaced_before_mean_witness :
    meanOpt (monthObs [(⟨2020, 1, 2⟩, Cell.num 0), (⟨2020, 1, 3⟩, Cell.num 0)]
      (Date.monthIx ⟨2020, 1, 2⟩)) = none :=
  C10_zero_replaced_before_mean.2 _ _ (by with_unfolding_all decide)

/-- C6 counterexample: on a table with no date-like column name,
`clean_fx` silently returns the empty frame — a value, not a reported
`SchemaNotFound` error (the bare `except` swallows the failure). -/
theorem C6_counterexample :
    findDateCol noDateTable.cols = none ∧ clean_fx noDateTable = [] := by
  exact ⟨by with_unfolding_all decide, by with_unfolding_all decide⟩

/-- C6 amended: when no column name contains "date" (case-insensitively),
or when there is no second column to serve as the value column, `clean_fx`
returns the empty frame silently instead of raising a reported error. -/
theorem C6_detection_failure_amended :
    (∀ t : RawTable, findDateCol t.cols = none → clean_fx t = []) ∧
    (∀ (t : RawTable) (di : ℕ), findDateCol t.cols = some di →
      findValCol t.cols di = none → clean_fx t = []) := by
  constructor
  · intro t h
    unfold clean_fx
    simp only [h]
  · intro t di h1 h2
    unfold clean_fx
    simp only [h1, h2]

/-- Witness for C6: the concrete ["Year", "Value"] table concretely takes
the empty-frame branch. -/
theorem C6_detection_failure_amended_witness :
    findDateCol noDateTable.cols = none ∧ clean_fx noDateTable = [] :=
  ⟨by with_unfolding_all decide,
    C6_detection_failure_amended.1 noDateTable (by with_unfolding_all decide)⟩

/-- C5 (spec-modelled, the smoothing parameter is absent from
src/app.py): the smoothed output satisfies
`fair = (1 - smoothing) * raw + smoothing * rate`; smoothing 1 always
returns the observed rate with a zero gap, smoothing 0 returns the
unsmoothed raw value. -/
theorem C5_smoothing_bounds :
    ∀ (inflation rate output_gap : ℚ) (cfg : ModelConfig),
      (evaluate inflation rate output_gap cfg).1 =
        (1 - cfg.smoothing) * raw_fair_value inflation output_gap cfg +
          cfg.smoothing * rate ∧
      (cfg.smoothing = 1 →
        (evaluate inflation rate output_gap cfg).1 = rate ∧
        (evaluate inflation rate output_gap cfg).2 = 0) ∧
      (cfg.smoothing = 0 →
        (evaluate inflation rate output_gap cfg).1 =
          raw_fair_value inflation output_gap cfg) := by
  intro inflation rate output_gap cfg
  refine ⟨rfl, ?_, ?_⟩
  · intro h
    simp only [evaluate, h]
    constructor
    · ring
    · ring
  · intro h
    simp only [evaluate, h]
    ring

/-- Witness for C5: at the spec's scenario inputs, smoothing 1 returns the
observed rate 6.5 with gap 0, and smoothing 0 returns the raw value. -/
theorem C5_smoothing_bounds_witness :
    (evaluate 6 (13 / 2) 0 ⟨4, 3 / 2, 3 / 2, 1 / 2, 1⟩).1 = 13 / 2 ∧
    (evaluate 6 (13 / 2) 0 ⟨4, 3 / 2, 3 / 2, 1 / 2, 1⟩).2 = 0 ∧
    (evaluate 6 (13 / 2) 0 ⟨4, 3 / 2, 3 / 2, 1 / 2, 0⟩).1 =
      raw_fair_value 6 0 ⟨4, 3 / 2, 3 / 2, 1 / 2, 0⟩ :=
  ⟨((C5_smoothing_bounds 6 (13 / 2) 0 _).2.1 rfl).1,
   ((C5_smoothing_bounds 6 (13 / 2) 0 _).2.1 rfl).2,
   (C5_smoothing_bounds 6 (13 / 2) 0 _).2.2 rfl⟩

/-- C2 counterexample: at the claim's inputs (inflation 6.0, target 4.0,
neutral rate 1.5, zero output gap) the code's Taylor column
(src/app.py:135) yields 2.5, not the claimed 10.5 that the spec's
`raw_fair_value` formula produces; no `policy_gap_bps` is computed by the
code at all. -/
theorem C2_counterexample :
    taylorColumn (3 / 2) 4 [some 6] [some 0] = [some (5 / 2)] ∧
    raw_fair_value 6 0 ⟨4, 3 / 2, 3 / 2, 1 / 2, 0⟩ = 21 / 2 ∧
    ((5 : ℚ) / 2) ≠ 21 / 2 := by
  refine ⟨by with_unfolding_all decide, by with_unfolding_all decide,
    by with_unfolding_all decide⟩

/-- C2 amended: the code's Taylor column computes, rowwise,
`n + 0.5 * (cpi - t) + 0.5 * (gdp - mean(gdp))` with both weights fixed at
0.5 and no additive observed-inflation term. -/
theorem C2_taylor_column_amended :
    ∀ (n t : ℚ) (cpi gdp : List (Option ℚ)) (i : ℕ) (c g a : ℚ),
      meanOpt gdp = some a →
      cpi[i]? = some (some c) →
      gdp[i]? = some (some g) →
      (taylorColumn n t cpi gdp)[i]? =
        some (some (n + 1 / 2 * (c - t) + 1 / 2 * (g - a))) := by
  intro n t cpi gdp i c g a ha hc hg
  unfold taylorColumn
  rw [List.getElem?_zipWith, hc, hg]
  simp [ha]

/-- Witness for C2 amended: the concrete one-row frame of the
counterexample satisfies the amended rowwise formula. -/
theorem C2_taylor_column_amended_witness :
    (taylorColumn (3 / 2) 4 [some 6] [some 0])[0]? =
      some (some (3 / 2 + 1 / 2 * (6 - 4) + 1 / 2 * (0 - 0))) :=
  C2_taylor_column_amended (3 / 2) 4 [some 6] [some 0] 0 6 0 0
    (by with_unfolding_all decide) rfl rfl

/-- C1 counterexample: for a daily series with one numeric January 2020
observation and only an `ND` in February 2020, the February bucket has no
non-Missing observation, yet `clean_fx` outputs January's value 1 for
February — the `.ffill()` fills the gap, so the output is not Missing as
the claim states. -/
theorem C1_counterexample :
    meanOpt (monthObs (dropNaT (fxFebND.rows.map
      (fun r => (to_datetime (cellAt r 0), cellAt r 1)))) 24241) = none ∧
    clean_fx fxFebND = [(⟨2020, 1, 1⟩, some 1), (⟨2020, 2, 1⟩, some 1)] := by
  exact ⟨by with_unfolding_all decide, by with_unfolding_all decide⟩

/-- C1 amended: the monthly value of the FX aligner equals the arithmetic
mean of the non-Missing daily observations for every month having at
least one such observation; the value column is the forward- then
backward-fill of the per-month means, so empty months receive a
neighbouring month's mean instead of Missing. -/
theorem C1_daily_mean_amended :
    ∀ rows : List (Option Date × Cell),
      ((cleanFXdata rows).map (fun p => p.2) = ffb (preMeans (dropNaT rows))) ∧
      (∀ (i : ℕ) (q : ℚ), (preMeans (dropNaT rows))[i]? = some (some q) →
        ((cleanFXdata rows).map (fun p => p.2))[i]? = some (some q)) ∧
      (∀ i : ℕ, (preMeans (dropNaT rows))[i]? =
        ((monthRange (dropNaT rows))[i]?).map
          (fun mi => meanOpt (monthObs (dropNaT rows) mi))) := by
  intro rows
  have hlen : (ffb (preMeans (dropNaT rows))).length ≤
      ((monthRange (dropNaT rows)).map monthStart).length := by
    rw [List.length_map, ffb_length]
    unfold preMeans
    rw [List.length_map]
  have h1 : (cleanFXdata rows).map (fun p => p.2) = ffb (preMeans (dropNaT rows)) := by
    unfold cleanFXdata
    exact List.map_snd_zip _ _ hlen
  refine ⟨h1, ?_, ?_⟩
  · intro i q h
    rw [h1]
    exact ffb_getElem?_some _ i q h
  · intro i
    unfold preMeans
    rw [List.getElem?_map]

/-- Witness for C1 amended: a January 2020 bucket of three 10.0
observations and one `ND` concretely has monthly mean exactly 10.0, which
the aligner outputs for that month. -/
theorem C1_daily_mean_amended_witness :
    (preMeans (dropNaT janTens))[0]? = some (some 10) ∧
    ((cleanFXdata janTens).map (fun p => p.2))[0]? = some (some 10) :=
  ⟨by with_unfolding_all decide,
    (C1_daily_mean_amended janTens).2.1 0 10 (by with_unfolding_all decide)⟩

/-- C4: applying the Stagflation scenario block builds a new frame (the
`.copy()`), adds the rate intervention to the policy column, adds
`5.0 * mult` to CPI and subtracts `3.0 * mult` from GDP on the copy, and
leaves the base frame `df_raw` untouched. -/
theorem C4_scenario_no_mutation (h : Heap) (i : ℕ) (ra mu : ℚ)
    (hi : i < h.length) :
    ((applyStagflation h i ra mu).1.getD i [] = h.getD i []) ∧
    ((applyStagflation h i ra mu).1.getD (applyStagflation h i ra mu).2 [] =
      (h.getD i []).map (fun r =>
        { r with policy := r.policy.map (fun v => v + ra / 100),
                 cpi := r.cpi.map (fun v => v + 5 * mu),
                 gdp := r.gdp.map (fun v => v - 3 * mu) })) := by
  have hne : h.length ≠ i := by omega
  constructor
  · simp only [applyStagflation, copyFrame, mutateFrame]
    rw [getD_set_ne _ _ _ hne, getD_set_ne _ _ _ hne, getD_set_ne _ _ _ hne,
      List.getD_append _ _ _ _ hi]
  · simp only [applyStagflation, copyFrame, mutateFrame]
    rw [getD_set_self _ _ _ _ (by simp),
      getD_set_self _ _ _ _ (by simp),
      getD_set_self _ _ _ _ (by simp),
      List.getD_append_right _ _ _ _ (le_refl _)]
    simp only [Nat.sub_self, List.getD_cons_zero, List.map_map]
    rfl

/-- Witness for C4: on the concrete one-row base frame with CPI 5.0 and
policy 6.0, the Stagflation preset at full severity yields a new frame
whose latest CPI is 10.0 while the base frame still reads 5.0. -/
theorem C4_scenario_no_mutation_witness :
    0 < ([baseFrame] : Heap).length ∧
    (applyStagflation [baseFrame] 0 0 1).1.getD 0 [] = [baseFrame].getD 0 [] ∧
    lastVal (((applyStagflation [baseFrame] 0 0 1).1.getD
      (applyStagflation [baseFrame] 0 0 1).2 []).map (fun r => r.cpi)) = some 10 ∧
    lastVal (([baseFrame] : Heap).getD 0 [] |>.map (fun r => r.cpi)) = some 5 :=
  ⟨by decide, (C4_scenario_no_mutation [baseFrame] 0 0 1 (by decide)).1,
   by with_unfolding_all decide, by with_unfolding_all decide⟩

/-- C3 counterexample: with one GDP observation for 2020 (value 6.5) and
monthly rows in both 2020 and 2021, the 2021 row — a year with no GDP
observation — receives 6.5 via the final `.ffill()` instead of the
Missing the claim requires. -/
theorem C3_counterexample :
    dfgOnly2020.find? (fun p => p.1 = 2021) = none ∧
    (buildFrame dfmTwoYears dfgOnly2020 [] [] []).map (fun r => r.gdp) =
      [some (13 / 2), some (13 / 2)] := by
  exact ⟨by with_unfolding_all decide, by with_unfolding_all decide⟩

/-- C3 amended: the year-merge step-expands a GDP observation (Y, v) to
every monthly row dated in year Y (each row receiving the identical
value v, which the fill steps preserve); rows of years with no
observation are not Missing in the final frame but are filled forward or
backward from neighbouring years by src/app.py:78. -/
theorem C3_annual_step_fill_amended (dfm : List MRow)
    (dfg : List (ℕ × Option ℚ)) (fxi fxu fxs : List (Date × Option ℚ))
    (y : ℕ) (v : ℚ)
    (hfind : dfg.find? (fun p => p.1 = y) = some (y, some v))
    (i : ℕ) (t : Date) (hy : t.y = y)
    (hdate : ((sortRows (dfm.map (mergeRow dfg fxi fxu fxs))).map
      (fun r => r.date))[i]? = some (some t)) :
    ((buildFrame dfm dfg fxi fxu fxs).map (fun r => r.gdp))[i]? =
      some (some v) := by
  rw [List.getElem?_map] at hdate
  cases hq : (sortRows (dfm.map (mergeRow dfg fxi fxu fxs)))[i]? with
  | none =>
    rw [hq] at hdate
    exact absurd hdate (by simp)
  | some q =>
    rw [hq] at hdate
    have hqd : q.date = some t := by simpa using hdate
    have hmem : q ∈ dfm.map (mergeRow dfg fxi fxu fxs) :=
      (sortRows_perm _).mem_iff.mp (List.getElem?_mem hq)
    obtain ⟨r, hr, rfl⟩ := List.mem_map.mp hmem
    have hrd : r.date = some t := hqd
    have hgdp : (mergeRow dfg fxi fxu fxs r).gdp = some v := by
      show r.date.bind
        (fun d => (dfg.find? (fun p => p.1 = d.y)).bind (fun p => p.2)) = some v
      rw [hrd]
      simp [hy, hfind]
    unfold buildFrame
    rw [fillCols_map_gdp]
    apply ffb_getElem?_some
    rw [List.getElem?_map, hq]
    simp [hgdp]

/-- Witness for C3 amended: one annual observation (2020, 6.5) concretely
step-fills all twelve monthly rows of 2020 with 6.5. -/
theorem C3_annual_step_fill_amended_witness :
    dfgOnly2020.find? (fun p => p.1 = 2020) = some (2020, some (13 / 2)) ∧
    ((buildFrame dfm2020 dfgOnly2020 [] [] []).map (fun r => r.gdp))[0]? =
      some (some (13 / 2)) ∧
    (buildFrame dfm2020 dfgOnly2020 [] [] []).map (fun r => r.gdp) =
      List.replicate 12 (some (13 / 2)) :=
  ⟨by with_unfolding_all decide,
   C3_annual_step_fill_amended dfm2020 dfgOnly2020 [] [] [] 2020 (13 / 2)
     (by with_unfolding_all decide) 0 ⟨2020, 1, 1⟩ rfl
     (by with_unfolding_all decide),
   by with_unfolding_all decide⟩

theorem map_fxU_scrub (L : List Row) :
    (L.map scrubFxI).map (fun r => r.fxU) = L.map (fun r => r.fxU) := by
  rw [List.map_map]
  rfl

/-- C9 counterexample: with the India FX file `DEXINUS.xlsx` absent,
`load_data` returns `None` (src/app.py:57) — no source produces any part
of the output — even though the UK FX table on its own cleans to a
non-empty series. -/
theorem C9_counterexample :
    load_data inrMissing [] [] gbpTable gbpTable gbpTable = none ∧
    clean_fx gbpTable = [(⟨2024, 1, 1⟩, some 2)] := by
  exact ⟨by with_unfolding_all decide, by with_unfolding_all decide⟩

/-- C9 amended: the three FX sources are cleaned independently — the
non-India columns of the joined frame do not depend on the India FX
input at all, so a malformed FX source degrades only its own column —
but a single absent file aborts the whole load: `load_data` returns
`None` and nothing is loaded. -/
theorem C9_per_source_independence_amended :
    (∀ (fEx : String → Bool) (dfm : List MRow) (dfg : List (ℕ × Option ℚ))
      (t1 t2 t3 : RawTable), ¬ (fileNames.all fEx = true) →
      load_data fEx dfm dfg t1 t2 t3 = none) ∧
    (∀ (dfm : List MRow) (dfg : List (ℕ × Option ℚ))
      (fxi fxi' fxu fxs : List (Date × Option ℚ)),
      (buildFrame dfm dfg fxi fxu fxs).map (fun r => r.fxU) =
        (buildFrame dfm dfg fxi' fxu fxs).map (fun r => r.fxU)) := by
  constructor
  · intro fEx dfm dfg t1 t2 t3 h
    unfold load_data
    rw [if_neg h]
  · intro dfm dfg fxi fxi' fxu fxs
    have key : ∀ fx : List (Date × Option ℚ),
        (buildFrame dfm dfg fx fxu fxs).map (fun r => r.fxU) =
        ffb ((((dfm.map (mergeRow dfg fx fxu fxs)).map scrubFxI).insertionSort
          rowLe).map (fun r => r.fxU)) := by
      intro fx
      unfold buildFrame sortRows
      rw [fillCols_map_fxU,
        ← insertionSort_map scrubFxI rowLe rowLe (fun a b => Iff.rfl),
        map_fxU_scrub]
    have hscrub : (dfm.map (mergeRow dfg fxi fxu fxs)).map scrubFxI
        = (dfm.map (mergeRow dfg fxi' fxu fxs)).map scrubFxI := by
      rw [List.map_map, List.map_map]
      exact List.map_congr_left (fun r hr => rfl)
    rw [key fxi, key fxi', hscrub]

/-- Witness for C9 amended: the concrete one-missing-file oracle makes
`load_data` return `None`. -/
theorem C9_per_source_independence_amended_witness :
    ¬ (fileNames.all inrMissing = true) ∧
    load_data inrMissing [] [] gbpTable gbpTable gbpTable = none :=
  ⟨by with_unfolding_all decide,
    C9_per_source_independence_amended.1 inrMissing [] [] gbpTable gbpTable
      gbpTable (by with_unfolding_all decide)⟩

theorem monthRange_pairwise (rows : List (Date × Cell)) :
    (monthRange rows).Pairwise (· < ·) := by
  unfold monthRange
  cases rows.map (fun p => p.1.monthIx) with
  | nil => exact List.Pairwise.nil
  | cons mi mis =>
    exact (List.pairwise_lt_range _).map _ (fun a b hab => by omega)

theorem cleanFXdata_map_fst (rows : List (Option Date × Cell)) :
    (cleanFXdata rows).map (fun p => p.1) =
      (monthRange (dropNaT rows)).map monthStart := by
  unfold cleanFXdata
  refine List.map_fst_zip _ _ ?_
  rw [List.length_map, ffb_length]
  unfold preMeans
  rw [List.length_map]

/-- C7 counterexample: two raw monthly rows sharing the same date survive
into the joined frame as two rows with the identical timestamp —
`sort_values` sorts but never deduplicates — so the output is not
strictly ascending. -/
theorem C7_counterexample :
    (buildFrame dfmDupDate [] [] [] []).map (fun r => odKey r.date) =
      [20200101, 20200101] ∧
    ¬ ((buildFrame dfmDupDate [] [] [] []).map
      (fun r => odKey r.date)).Pairwise (· < ·) := by
  exact ⟨by with_unfolding_all decide, by with_unfolding_all decide⟩

/-- C7 amended: the monthly FX series is always strictly ascending (its
index is a generated month range); the joined frame is sorted
non-decreasingly by date whenever the raw dates all parse, and is
strictly ascending exactly when the raw dates are pairwise distinct —
duplicated raw rows survive as duplicated timestamps. -/
theorem C7_sort_invariant_amended :
    (∀ rows : List (Option Date × Cell),
      ((cleanFXdata rows).map (fun p => p.1.key)).Pairwise (· < ·)) ∧
    (∀ (dfm : List MRow) (dfg : List (ℕ × Option ℚ))
      (fxi fxu fxs : List (Date × Option ℚ)),
      (∀ r ∈ dfm, r.date.isSome = true) →
      ((buildFrame dfm dfg fxi fxu fxs).map
        (fun r => odKey r.date)).Pairwise (· ≤ ·) ∧
      ((dfm.map (fun r => odKey r.date)).Nodup →
        ((buildFrame dfm dfg fxi fxu fxs).map
          (fun r => odKey r.date)).Pairwise (· < ·))) := by
  constructor
  · intro rows
    have h1 : (cleanFXdata rows).map (fun p => p.1.key)
        = ((monthRange (dropNaT rows)).map monthStart).map Date.key := by
      rw [← cleanFXdata_map_fst rows, List.map_map]
      rfl
    rw [h1, List.map_map]
    refine (monthRange_pairwise _).map _ (fun a b hab => ?_)
    show (monthStart a).key < (monthStart b).key
    simp only [monthStart, Date.key]
    omega
  · intro dfm dfg fxi fxu fxs hsome
    have hms : ∀ q ∈ dfm.map (mergeRow dfg fxi fxu fxs), q.date.isSome = true := by
      intro q hq
      obtain ⟨r, hr, rfl⟩ := List.mem_map.mp hq
      exact hsome r hr
    have hss : ∀ q ∈ sortRows (dfm.map (mergeRow dfg fxi fxu fxs)),
        q.date.isSome = true := by
      intro q hq
      exact hms q ((sortRows_perm _).mem_iff.mp hq)
    have hcol : (buildFrame dfm dfg fxi fxu fxs).map (fun r => r.date)
        = (sortRows (dfm.map (mergeRow dfg fxi fxu fxs))).map (fun r => r.date) := by
      unfold buildFrame
      rw [fillCols_map_date]
      apply ffb_all_isSome
      intro x hx
      obtain ⟨q, hq, rfl⟩ := List.mem_map.mp hx
      exact hss q hq
    have hkeys : (buildFrame dfm dfg fxi fxu fxs).map (fun r => odKey r.date)
        = (sortRows (dfm.map (mergeRow dfg fxi fxu fxs))).map
          (fun r => odKey r.date) := by
      calc (buildFrame dfm dfg fxi fxu fxs).map (fun r => odKey r.date)
          = ((buildFrame dfm dfg fxi fxu fxs).map (fun r => r.date)).map odKey := by
            rw [List.map_map]
            rfl
        _ = ((sortRows (dfm.map (mergeRow dfg fxi fxu fxs))).map
              (fun r => r.date)).map odKey := by rw [hcol]
        _ = (sortRows (dfm.map (mergeRow dfg fxi fxu fxs))).map
              (fun r => odKey r.date) := by
            rw [List.map_map]
            rfl
    have hle : ((sortRows (dfm.map (mergeRow dfg fxi fxu fxs))).map
        (fun r => odKey r.date)).Pairwise (· ≤ ·) := by
      refine List.pairwise_map.mpr ?_
      refine List.Pairwise.imp_of_mem ?_ (sortRows_sorted _)
      intro a b ha hb hab
      unfold rowLe at hab
      obtain ⟨x, hx⟩ := Option.isSome_iff_exists.mp (hss a ha)
      obtain ⟨z, hz⟩ := Option.isSome_iff_exists.mp (hss b hb)
      rw [hx, hz] at hab
      have hxz : x.key ≤ z.key := by simpa [odLe] using hab
      show odKey a.date ≤ odKey b.date
      rw [hx, hz]
      simpa [odKey] using hxz
    constructor
    · rw [hkeys]
      exact hle
    · intro hnd
      have hperm : List.Perm ((sortRows (dfm.map (mergeRow dfg fxi fxu fxs))).map
          (fun r => odKey r.date)) (dfm.map (fun r => odKey r.date)) := by
        have h1 := (sortRows_perm (dfm.map (mergeRow dfg fxi fxu fxs))).map
          (fun r => odKey r.date)
        have h2 : (dfm.map (mergeRow dfg fxi fxu fxs)).map (fun r => odKey r.date)
            = dfm.map (fun r => odKey r.date) := by
          rw [List.map_map]
          exact List.map_congr_left (fun r hr => rfl)
        rw [h2] at h1
        exact h1
      have hnd2 : ((sortRows (dfm.map (mergeRow dfg fxi fxu fxs))).map
          (fun r => odKey r.date)).Nodup := hnd.perm hperm.symm
      rw [hkeys]
      exact (hle.and hnd2).imp (fun h => lt_of_le_of_ne h.1 h.2)

/-- Witness for C7 amended: two distinct-dated macro rows concretely
produce a strictly ascending joined frame. -/
theorem C7_sort_invariant_amended_witness :
    (∀ r ∈ dfmTwoYears, r.date.isSome = true) ∧
    ((buildFrame dfmTwoYears [] [] [] []).map
      (fun r => odKey r.date)).Pairwise (· < ·) :=
  ⟨by with_unfolding_all decide,
    (C7_sort_invariant_amended.2 dfmTwoYears [] [] [] []
      (by with_unfolding_all decide)).2 (by with_unfolding_all decide)⟩

end MacroModel
